import Mathlib

/-!
# Verification of the document-intelligence analysis core

Shallow embedding of the analysis orchestration pipeline and the
knowledge-graph / timeline builders of the document-intelligence
platform (`backend/services/analysis_engine.py`,
`backend/models/knowledge_graph.py`, `backend/routes/analysis.py`,
`backend/database/redis_cache.py`, `backend/database/mongodb.py`).

Python dicts holding analyzer payloads become Lean structures; `float`
becomes `ℚ`; Python `int` becomes `ℤ`; fallible calls become
`Except String`; the Mongo store and Redis cache become explicit state
records threaded through the orchestrator.
-/

/-- An extracted named entity, as produced by the NER model
(`{text, label, start, end, description}`). -/
structure Entity where
  text : String
  label : String
  start : Int
  end_ : Int
  description : Option String
deriving DecidableEq, Repr

/-- A relationship triple as produced by `extract_relationships`
(`{subject, relation, object, ...}`); `relation` is `Option` because the
graph builder reads it with `rel.get('relation', 'related_to')`. -/
structure Relationship where
  subject : String
  object_ : String
  relation : Option String
deriving DecidableEq, Repr

/-- A node of the NetworkX `DiGraph`.  `attrs` is `none` for a node that
was auto-created by `add_edge` without attributes (never happens on the
code paths of `build_graph`, but kept for faithfulness to NetworkX). -/
structure GNode where
  id : String
  attrs : Option (String × String)  -- (type, label)
deriving DecidableEq, Repr

/-- A directed edge with its `relation` attribute. -/
structure GEdge where
  source : String
  target : String
  relation : String
deriving DecidableEq, Repr

/-- NetworkX `DiGraph`: node list in insertion order with unique ids,
edge list in insertion order with unique (source, target) keys. -/
structure DiGraph where
  nodes : List GNode
  edges : List GEdge
deriving DecidableEq, Repr

def DiGraph.empty : DiGraph := ⟨[], []⟩

/-- Membership test `node_id in G.nodes`. -/
def has_node (g : DiGraph) (x : String) : Bool :=
  g.nodes.any (fun n => n.id = x)

/-- NetworkX `G.add_node(id, type=ty, label=lbl)`: updates attributes in
place when the node exists, appends otherwise. -/
def add_node (g : DiGraph) (x ty lbl : String) : DiGraph :=
  if has_node g x then
    { g with nodes := g.nodes.map (fun n => if n.id = x then ⟨x, some (ty, lbl)⟩ else n) }
  else
    { g with nodes := g.nodes ++ [⟨x, some (ty, lbl)⟩] }

/-- NetworkX `G.add_edge(s, t, relation=r)`: auto-adds missing endpoint
nodes (bare, without attributes), overwrites the edge attributes when the
(source, target) pair already exists, appends otherwise. -/
def add_edge (g : DiGraph) (s t r : String) : DiGraph :=
  let g1 : DiGraph := if has_node g s then g else { g with nodes := g.nodes ++ [⟨s, none⟩] }
  let g2 : DiGraph := if has_node g1 t then g1 else { g1 with nodes := g1.nodes ++ [⟨t, none⟩] }
  if g2.edges.any (fun e => e.source = s ∧ e.target = t) then
    { g2 with edges := g2.edges.map (fun e => if e.source = s ∧ e.target = t then ⟨s, t, r⟩ else e) }
  else
    { g2 with edges := g2.edges ++ [⟨s, t, r⟩] }

/-- In-out degree of a node (NetworkX `G.degree`; a self-loop counts
twice, matching the sum of the two filters). -/
def degree (g : DiGraph) (x : String) : Nat :=
  (g.edges.filter (fun e => e.source = x)).length +
    (g.edges.filter (fun e => e.target = x)).length

/-- Node-adding phase of `build_graph`: one `add_node` per entity, keyed
by entity text, in list order. -/
def add_entity_nodes (entities : List Entity) : DiGraph :=
  entities.foldl (fun g e => add_node g e.text e.label e.text) DiGraph.empty

/-- Explicit-relationship phase of `build_graph`: for each relationship
whose subject and object are both existing nodes, add a directed edge
labeled `rel.get('relation', 'related_to')`. -/
def add_explicit_edges (g : DiGraph) (relationships : Option (List Relationship)) : DiGraph :=
  match relationships with
  | none => g
  | some rels =>
      rels.foldl
        (fun g r =>
          if has_node g r.subject && has_node g r.object_ then
            add_edge g r.subject r.object_ (r.relation.getD "related_to")
          else g)
        g

/-- One guarded pass of `_create_implicit_connections`: fold `add_edge`
with a fixed relation over a list of (source, target) pairs, guarded by
`if source in G.nodes and target in G.nodes`. -/
def add_pairs (g : DiGraph) (prs : List (String × String)) (r : String) : DiGraph :=
  prs.foldl
    (fun g pr => if has_node g pr.1 && has_node g pr.2 then add_edge g pr.1 pr.2 r else g)
    g

/-- Python `persons = [e['text'] for e in entities if e['label'] == 'PERSON']`. -/
def person_texts (entities : List Entity) : List String :=
  (entities.filter (fun e => e.label = "PERSON")).map Entity.text

/-- Python `orgs = [e['text'] for e in entities if e['label'] == 'ORG']`. -/
def org_texts (entities : List Entity) : List String :=
  (entities.filter (fun e => e.label = "ORG")).map Entity.text

/-- Python `locations = [e['text'] for e in entities if e['label'] == 'GPE']`. -/
def gpe_texts (entities : List Entity) : List String :=
  (entities.filter (fun e => e.label = "GPE")).map Entity.text

/-- The (person, org) pairs enumerated by the first nested loop of
`_create_implicit_connections` (`persons[:5] × orgs[:3]`, row-major). -/
def implicit_pairs1 (entities : List Entity) : List (String × String) :=
  ((person_texts entities).take 5) ×ˢ ((org_texts entities).take 3)

/-- The (org, location) pairs enumerated by the second nested loop
(`orgs[:5] × locations[:3]`, row-major). -/
def implicit_pairs2 (entities : List Entity) : List (String × String) :=
  ((org_texts entities).take 5) ×ˢ ((gpe_texts entities).take 3)

/-- Source `_create_implicit_connections(G, entities)`: connect the first 5
PERSON entities to the first 3 ORG entities (`associated_with`), then the
first 5 ORG entities to the first 3 GPE entities (`located_in`).  The
Python nested `for` loops enumerate exactly the row-major pair products
`implicit_pairs1` and `implicit_pairs2`. -/
def create_implicit_connections (g : DiGraph) (entities : List Entity) : DiGraph :=
  let g1 := add_pairs g (implicit_pairs1 entities) "associated_with"
  add_pairs g1 (implicit_pairs2 entities) "located_in"

/-- NetworkX `nx.density` for a directed graph: `0` if `m == 0 or n <= 1`,
else `m / (n*(n-1))`. -/
def nx_density (n m : Nat) : ℚ :=
  if m = 0 ∨ n ≤ 1 then 0 else (m : ℚ) / ((n : ℚ) * ((n : ℚ) - 1))

/-- Is `y` adjacent to `x` in the underlying undirected graph. -/
def undirected_adj (g : DiGraph) (x y : String) : Bool :=
  g.edges.any (fun e => (e.source = x ∧ e.target = y) ∨ (e.source = y ∧ e.target = x))

/-- Fueled closure of the node set `s` under undirected adjacency. -/
def weak_reach (g : DiGraph) : Nat → List String → List String
  | 0, s => s
  | k + 1, s =>
      weak_reach g k
        ((g.nodes.map GNode.id).filter (fun y => s.contains y || s.any (fun x => undirected_adj g x y)))

/-- NetworkX `nx.is_weakly_connected(G) if G.number_of_nodes() > 0 else False`. -/
def is_weakly_connected (g : DiGraph) : Bool :=
  match g.nodes.map GNode.id with
  | [] => false
  | x :: _ => (g.nodes.map GNode.id).all (fun y => (weak_reach g g.nodes.length [x]).contains y)

/-- Output node of `_graph_to_dict`:
`{id, label (default id), type (default 'unknown'), size = degree+5}`. -/
structure NodeOut where
  id : String
  label : String
  type_ : String
  size : Nat
deriving DecidableEq, Repr

/-- Output edge of `_graph_to_dict`:
`{source, target, relation (default 'related_to'), label (default '')}`.
Every edge built by this module carries a `relation` attribute, so both
`data.get` calls return it. -/
structure EdgeOut where
  source : String
  target : String
  relation : String
  label : String
deriving DecidableEq, Repr

/-- Statistics block attached by `build_graph`. -/
structure GraphStats where
  total_nodes : Nat
  total_edges : Nat
  entity_types : List (String × Nat)
  density : ℚ
  is_connected : Bool
deriving DecidableEq, Repr

/-- Visualization payload returned by `build_graph`. -/
structure GraphData where
  nodes : List NodeOut
  edges : List EdgeOut
  statistics : GraphStats
deriving DecidableEq, Repr

/-- Conversion of one node in `_graph_to_dict`. -/
def node_to_dict (g : DiGraph) (n : GNode) : NodeOut :=
  { id := n.id
    label := (n.attrs.map Prod.snd).getD n.id
    type_ := (n.attrs.map Prod.fst).getD "unknown"
    size := degree g n.id + 5 }

/-- Conversion of one edge in `_graph_to_dict`. -/
def edge_to_dict (e : GEdge) : EdgeOut :=
  { source := e.source, target := e.target, relation := e.relation, label := e.relation }

/-- Source `_graph_to_dict(G)`. -/
def graph_to_dict (g : DiGraph) : List NodeOut × List EdgeOut :=
  (g.nodes.map (node_to_dict g), g.edges.map edge_to_dict)

/-- The `entity_types` tally built during the node loop of `build_graph`:
`defaultdict(list)` keyed by label in first-occurrence order, reported as
`{k: len(v)}`. -/
def entity_type_counts (entities : List Entity) : List (String × Nat) :=
  ((entities.map Entity.label).dedup).map
    (fun lbl => (lbl, (entities.filter (fun e => e.label = lbl)).length))

/-- Python truthiness of the `relationships` argument:
`not relationships` is true for `None` and for the empty list. -/
def falsy_rels (relationships : Option (List Relationship)) : Bool :=
  match relationships with
  | none => true
  | some rels => rels.isEmpty

/-- The graph after the node loop and the explicit-relationship loop of
`build_graph` (steps 1 and 2). -/
def graph_stage1 (entities : List Entity) (relationships : Option (List Relationship)) : DiGraph :=
  add_explicit_edges (add_entity_nodes entities) relationships

/-- The graph after the fallback step of `build_graph`:
`if not relationships or len(G.edges) == 0: _create_implicit_connections(G, entities)`. -/
def graph_stage2 (entities : List Entity) (relationships : Option (List Relationship)) : DiGraph :=
  if falsy_rels relationships || (graph_stage1 entities relationships).edges.length = 0 then
    create_implicit_connections (graph_stage1 entities relationships) entities
  else graph_stage1 entities relationships

/-- Source `KnowledgeGraphBuilder.build_graph(entities, relationships)`.  The
surrounding `try/except` is dead in this embedding: every operation in
the body is total, so the error branch (empty graph plus error message)
is unreachable and not modelled. -/
def build_graph (entities : List Entity) (relationships : Option (List Relationship)) : GraphData :=
  let g2 := graph_stage2 entities relationships
  let converted := graph_to_dict g2
  { nodes := converted.1
    edges := converted.2
    statistics :=
      { total_nodes := g2.nodes.length
        total_edges := g2.edges.length
        entity_types := entity_type_counts entities
        density := nx_density g2.nodes.length g2.edges.length
        is_connected := is_weakly_connected g2 } }

/-! ## Basic graph lemmas -/

/-- Key of an edge: the (source, target) pair NetworkX deduplicates on. -/
def ekey (e : GEdge) : String × String := (e.source, e.target)

/-- The edge keys of a graph are pairwise distinct (a `DiGraph` is a
simple directed graph). -/
def NoDupKeys (g : DiGraph) : Prop := (g.edges.map ekey).Nodup

theorem add_edge_edges (g : DiGraph) (s t r : String) :
    (add_edge g s t r).edges =
      if g.edges.any (fun e => e.source = s ∧ e.target = t) then
        g.edges.map (fun e => if e.source = s ∧ e.target = t then ⟨s, t, r⟩ else e)
      else g.edges ++ [⟨s, t, r⟩] := by
  unfold add_edge
  dsimp only
  split_ifs <;> rfl

theorem mem_add_edge {g : DiGraph} {s t r : String} (e : GEdge) :
    e ∈ (add_edge g s t r).edges ↔
      e = ⟨s, t, r⟩ ∨ (e ∈ g.edges ∧ ¬(e.source = s ∧ e.target = t)) := by
  rw [add_edge_edges]
  split_ifs with hany
  · simp only [List.mem_map]
    constructor
    · rintro ⟨x, hx, hfx⟩
      by_cases hk : x.source = s ∧ x.target = t
      · left; rw [← hfx]; simp [hk]
      · right; rw [← hfx]; simp [hk, hx]
    · rintro (rfl | ⟨he, hk⟩)
      · simp only [List.any_eq_true, decide_eq_true_eq] at hany
        obtain ⟨x, hx, hkx⟩ := hany
        exact ⟨x, hx, by simp [hkx]⟩
      · exact ⟨e, he, by simp [hk]⟩
  · simp only [List.any_eq_true, decide_eq_true_eq, not_exists, not_and] at hany
    simp only [List.mem_append, List.mem_singleton]
    constructor
    · rintro (he | rfl)
      · exact Or.inr ⟨he, fun hk => (hany e he) hk.1 hk.2⟩
      · exact Or.inl rfl
    · rintro (rfl | ⟨he, _⟩)
      · exact Or.inr rfl
      · exact Or.inl he

theorem nodupkeys_add_edge {g : DiGraph} (s t r : String) (h : NoDupKeys g) :
    NoDupKeys (add_edge g s t r) := by
  unfold NoDupKeys
  rw [add_edge_edges]
  split_ifs with hany
  · rw [List.map_map]
    have : ekey ∘ (fun e => if e.source = s ∧ e.target = t then (⟨s, t, r⟩ : GEdge) else e) =
        ekey := by
      funext x
      by_cases hk : x.source = s ∧ x.target = t
      · simp [ekey, hk, hk.1, hk.2]
      · simp [hk]
    rw [this]; exact h
  · simp only [List.any_eq_true, decide_eq_true_eq, not_exists, not_and] at hany
    rw [List.map_append]
    simp only [List.map_cons, List.map_nil]
    rw [List.nodup_append]
    refine ⟨h, List.nodup_singleton _, ?_⟩
    intro p hp hp1
    simp only [List.mem_singleton] at hp1
    subst hp1
    simp only [List.mem_map] at hp
    obtain ⟨x, hx, hkx⟩ := hp
    exact hany x hx (congrArg Prod.fst hkx) (congrArg Prod.snd hkx)

theorem has_node_add_edge {g : DiGraph} {x : String} (s t r : String)
    (h : has_node g x = true) : has_node (add_edge g s t r) x = true := by
  unfold add_edge has_node at *
  dsimp only
  split_ifs <;> simp_all [List.any_append]

theorem add_edge_nodes_of_has {g : DiGraph} {s t : String} (r : String)
    (hs : has_node g s = true) (ht : has_node g t = true) :
    (add_edge g s t r).nodes = g.nodes := by
  unfold add_edge
  dsimp only
  split_ifs <;> simp_all

theorem has_node_add_node (g : DiGraph) (i ty lbl x : String) :
    has_node (add_node g i ty lbl) x = true ↔ (has_node g x = true ∨ x = i) := by
  unfold add_node has_node
  split_ifs with hi
  · have hmap : ((g.nodes.map (fun n => if n.id = i then (⟨i, some (ty, lbl)⟩ : GNode) else n)).any
        (fun n => decide (n.id = x))) = g.nodes.any (fun n => decide (n.id = x)) := by
      rw [List.any_map]
      congr 1
      funext n
      by_cases hni : n.id = i <;> simp [Function.comp, hni]
    dsimp only
    rw [hmap]
    constructor
    · exact Or.inl
    · rintro (h | rfl)
      · exact h
      · exact hi
  · dsimp only
    rw [List.any_append]
    simp only [List.any_cons, List.any_nil, Bool.or_false, Bool.or_eq_true,
      decide_eq_true_eq]
    exact or_congr Iff.rfl (by constructor <;> (intro h; exact h.symm))

theorem has_node_congr {g1 g2 : DiGraph} (h : g1.nodes = g2.nodes) (x : String) :
    has_node g1 x = has_node g2 x := by
  unfold has_node; rw [h]

theorem add_pairs_nil (g : DiGraph) (r : String) : add_pairs g [] r = g := rfl

theorem add_pairs_cons (g : DiGraph) (pr : String × String) (ps : List (String × String))
    (r : String) :
    add_pairs g (pr :: ps) r =
      add_pairs (if has_node g pr.1 && has_node g pr.2 then add_edge g pr.1 pr.2 r else g) ps r :=
  rfl

theorem has_node_add_pairs {g : DiGraph} {x : String} (prs : List (String × String)) (r : String)
    (h : has_node g x = true) : has_node (add_pairs g prs r) x = true := by
  induction prs generalizing g with
  | nil => exact h
  | cons pr ps ih =>
    rw [add_pairs_cons]
    apply ih
    split_ifs with hg
    · exact has_node_add_edge _ _ _ h
    · exact h

theorem nodupkeys_add_pairs {g : DiGraph} (prs : List (String × String)) (r : String)
    (h : NoDupKeys g) : NoDupKeys (add_pairs g prs r) := by
  induction prs generalizing g with
  | nil => exact h
  | cons pr ps ih =>
    rw [add_pairs_cons]
    apply ih
    split_ifs with hg
    · exact nodupkeys_add_edge _ _ _ h
    · exact h

theorem add_pairs_nodes {g : DiGraph} {prs : List (String × String)} (r : String)
    (h : ∀ pr ∈ prs, has_node g pr.1 = true ∧ has_node g pr.2 = true) :
    (add_pairs g prs r).nodes = g.nodes := by
  induction prs generalizing g with
  | nil => rfl
  | cons pr ps ih =>
    rw [add_pairs_cons]
    have hpr := h pr (List.mem_cons_self _ _)
    rw [if_pos (by simp [hpr.1, hpr.2])]
    have hnodes : (add_edge g pr.1 pr.2 r).nodes = g.nodes :=
      add_edge_nodes_of_has r hpr.1 hpr.2
    rw [ih ?_, hnodes]
    intro pr2 hpr2
    have h2 := h pr2 (List.mem_cons_of_mem _ hpr2)
    rw [has_node_congr hnodes, has_node_congr hnodes]
    exact h2

theorem mem_add_pairs {g : DiGraph} {prs : List (String × String)} {r : String}
    (h : ∀ pr ∈ prs, has_node g pr.1 = true ∧ has_node g pr.2 = true) (e : GEdge) :
    e ∈ (add_pairs g prs r).edges ↔
      ((e.source, e.target) ∈ prs ∧ e.relation = r) ∨
        (e ∈ g.edges ∧ (e.source, e.target) ∉ prs) := by
  induction prs generalizing g with
  | nil => simp [add_pairs_nil]
  | cons pr ps ih =>
    obtain ⟨p1, p2⟩ := pr
    rw [add_pairs_cons]
    have hpr := h (p1, p2) (List.mem_cons_self _ _)
    rw [if_pos (by simp [hpr.1, hpr.2])]
    have hnodes : (add_edge g p1 p2 r).nodes = g.nodes :=
      add_edge_nodes_of_has r hpr.1 hpr.2
    have hhyp : ∀ pr2 ∈ ps,
        has_node (add_edge g p1 p2 r) pr2.1 = true ∧ has_node (add_edge g p1 p2 r) pr2.2 = true := by
      intro pr2 hpr2
      have h2 := h pr2 (List.mem_cons_of_mem _ hpr2)
      rw [has_node_congr hnodes, has_node_congr hnodes]
      exact h2
    rw [ih hhyp]
    rw [mem_add_edge]
    obtain ⟨es, et, er⟩ := e
    simp only [List.mem_cons, Prod.mk.injEq, GEdge.mk.injEq, not_or, not_and]
    constructor
    · rintro (⟨hmem, hrel⟩ | ⟨(⟨rfl, rfl, rfl⟩ | ⟨hg, hk⟩), hnot⟩)
      · exact Or.inl ⟨Or.inr hmem, hrel⟩
      · exact Or.inl ⟨Or.inl ⟨rfl, rfl⟩, rfl⟩
      · push_neg at hk
        exact Or.inr ⟨hg, ⟨hk, hnot⟩⟩
    · rintro (⟨(⟨rfl, rfl⟩ | hmem), hrel⟩ | ⟨hg, hk1, hk2⟩)
      · by_cases hps : ((es, et) : String × String) ∈ ps
        · exact Or.inl ⟨hps, hrel⟩
        · exact Or.inr ⟨Or.inl ⟨rfl, rfl, hrel⟩, by simpa using hps⟩
      · exact Or.inl ⟨hmem, hrel⟩
      · refine Or.inr ⟨Or.inr ⟨hg, ?_⟩, hk2⟩
        intro hes het
        exact (hk1 hes het).elim

theorem add_explicit_cons (g : DiGraph) (r : Relationship) (rs : List Relationship) :
    add_explicit_edges g (some (r :: rs)) =
      add_explicit_edges
        (if has_node g r.subject && has_node g r.object_ then
          add_edge g r.subject r.object_ (r.relation.getD "related_to")
        else g)
        (some rs) :=
  rfl

theorem add_explicit_nodes (g : DiGraph) (relationships : Option (List Relationship)) :
    (add_explicit_edges g relationships).nodes = g.nodes := by
  cases relationships with
  | none => rfl
  | some rs =>
    induction rs generalizing g with
    | nil => rfl
    | cons r rs ih =>
      rw [add_explicit_cons]
      split_ifs with hg
      · rw [Bool.and_eq_true] at hg
        rw [ih, add_edge_nodes_of_has _ hg.1 hg.2]
      · exact ih g

theorem mem_add_explicit {g : DiGraph} {relationships : Option (List Relationship)} (e : GEdge)
    (he : e ∈ (add_explicit_edges g relationships).edges) :
    e ∈ g.edges ∨ (has_node g e.source = true ∧ has_node g e.target = true) := by
  cases relationships with
  | none => exact Or.inl he
  | some rs =>
    induction rs generalizing g with
    | nil => exact Or.inl he
    | cons r rs ih =>
      rw [add_explicit_cons] at he
      by_cases hg : has_node g r.subject && has_node g r.object_
      · rw [if_pos hg] at he
        rw [Bool.and_eq_true] at hg
        have hnodes := add_edge_nodes_of_has (r.relation.getD "related_to") hg.1 hg.2
        rcases ih he with hmem | ⟨h1, h2⟩
        · rcases (mem_add_edge e).mp hmem with rfl | ⟨hmem2, _⟩
          · exact Or.inr ⟨hg.1, hg.2⟩
          · exact Or.inl hmem2
        · rw [has_node_congr hnodes] at h1 h2
          exact Or.inr ⟨h1, h2⟩
      · rw [if_neg hg] at he
        exact ih he

theorem add_entity_nodes_edges (entities : List Entity) :
    (add_entity_nodes entities).edges = [] := by
  have aux : ∀ (l : List Entity) (g : DiGraph),
      (l.foldl (fun g e => add_node g e.text e.label e.text) g).edges = g.edges := by
    intro l
    induction l with
    | nil => intro g; rfl
    | cons e l ih =>
      intro g
      rw [List.foldl_cons, ih]
      unfold add_node
      split_ifs <;> rfl
  exact aux entities DiGraph.empty

theorem has_node_add_entity_nodes (entities : List Entity) (x : String) :
    has_node (add_entity_nodes entities) x = true ↔ x ∈ entities.map Entity.text := by
  have aux : ∀ (l : List Entity) (g : DiGraph),
      (has_node (l.foldl (fun g e => add_node g e.text e.label e.text) g) x = true ↔
        (has_node g x = true ∨ x ∈ l.map Entity.text)) := by
    intro l
    induction l with
    | nil => simp
    | cons e l ih =>
      intro g
      rw [List.foldl_cons, ih, has_node_add_node]
      simp only [List.map_cons, List.mem_cons]
      tauto
  unfold add_entity_nodes
  rw [aux]
  simp [has_node, DiGraph.empty]

theorem filtered_texts_subset (entities : List Entity) (p : Entity → Bool) {x : String}
    (h : x ∈ (entities.filter p).map Entity.text) : x ∈ entities.map Entity.text := by
  simp only [List.mem_map, List.mem_filter] at h ⊢
  obtain ⟨e, ⟨he, _⟩, rfl⟩ := h
  exact ⟨e, he, rfl⟩

theorem mem_pairs1_endpoints {entities : List Entity} {s t : String}
    (h : (s, t) ∈ implicit_pairs1 entities) :
    s ∈ entities.map Entity.text ∧ t ∈ entities.map Entity.text := by
  unfold implicit_pairs1 at h
  rw [List.mem_product] at h
  exact ⟨filtered_texts_subset _ _ (List.take_subset _ _ h.1),
    filtered_texts_subset _ _ (List.take_subset _ _ h.2)⟩

theorem mem_pairs2_endpoints {entities : List Entity} {s t : String}
    (h : (s, t) ∈ implicit_pairs2 entities) :
    s ∈ entities.map Entity.text ∧ t ∈ entities.map Entity.text := by
  unfold implicit_pairs2 at h
  rw [List.mem_product] at h
  exact ⟨filtered_texts_subset _ _ (List.take_subset _ _ h.1),
    filtered_texts_subset _ _ (List.take_subset _ _ h.2)⟩

theorem pairs_hyp_of_texts {entities : List Entity} {g : DiGraph}
    (hnodes : ∀ x ∈ entities.map Entity.text, has_node g x = true)
    {prs : List (String × String)}
    (hend : ∀ pr ∈ prs, pr.1 ∈ entities.map Entity.text ∧ pr.2 ∈ entities.map Entity.text) :
    ∀ pr ∈ prs, has_node g pr.1 = true ∧ has_node g pr.2 = true := by
  intro pr hpr
  exact ⟨hnodes _ (hend pr hpr).1, hnodes _ (hend pr hpr).2⟩

theorem create_implicit_nodes (entities : List Entity) {g : DiGraph}
    (hnodes : ∀ x ∈ entities.map Entity.text, has_node g x = true) :
    (create_implicit_connections g entities).nodes = g.nodes := by
  unfold create_implicit_connections
  have hp1 := pairs_hyp_of_texts hnodes
    (fun pr hpr => by obtain ⟨s, t⟩ := pr; exact @mem_pairs1_endpoints entities s t hpr)
  have hA : (add_pairs g (implicit_pairs1 entities) "associated_with").nodes = g.nodes :=
    add_pairs_nodes _ hp1
  have hp2 : ∀ pr ∈ implicit_pairs2 entities,
      has_node (add_pairs g (implicit_pairs1 entities) "associated_with") pr.1 = true ∧
        has_node (add_pairs g (implicit_pairs1 entities) "associated_with") pr.2 = true := by
    intro pr hpr
    obtain ⟨s, t⟩ := pr
    have he := @mem_pairs2_endpoints entities s t hpr
    rw [has_node_congr hA, has_node_congr hA]
    exact ⟨hnodes _ he.1, hnodes _ he.2⟩
  rw [add_pairs_nodes _ hp2, hA]

theorem mem_implicit {entities : List Entity} {g : DiGraph}
    (hedges : g.edges = [])
    (hnodes : ∀ x ∈ entities.map Entity.text, has_node g x = true) (e : GEdge) :
    e ∈ (create_implicit_connections g entities).edges ↔
      (((e.source, e.target) ∈ implicit_pairs2 entities ∧ e.relation = "located_in") ∨
        ((e.source, e.target) ∈ implicit_pairs1 entities ∧
          (e.source, e.target) ∉ implicit_pairs2 entities ∧ e.relation = "associated_with")) := by
  unfold create_implicit_connections
  have hp1 := pairs_hyp_of_texts hnodes
    (fun pr hpr => by obtain ⟨s, t⟩ := pr; exact @mem_pairs1_endpoints entities s t hpr)
  have hA : (add_pairs g (implicit_pairs1 entities) "associated_with").nodes = g.nodes :=
    add_pairs_nodes _ hp1
  have hp2 : ∀ pr ∈ implicit_pairs2 entities,
      has_node (add_pairs g (implicit_pairs1 entities) "associated_with") pr.1 = true ∧
        has_node (add_pairs g (implicit_pairs1 entities) "associated_with") pr.2 = true := by
    intro pr hpr
    obtain ⟨s, t⟩ := pr
    have he := @mem_pairs2_endpoints entities s t hpr
    rw [has_node_congr hA, has_node_congr hA]
    exact ⟨hnodes _ he.1, hnodes _ he.2⟩
  rw [mem_add_pairs hp2, mem_add_pairs hp1, hedges]
  simp only [List.not_mem_nil, false_and, or_false]
  tauto

theorem nodupkeys_implicit {entities : List Entity} {g : DiGraph} (hedges : g.edges = []) :
    NoDupKeys (create_implicit_connections g entities) := by
  unfold create_implicit_connections
  apply nodupkeys_add_pairs
  apply nodupkeys_add_pairs
  unfold NoDupKeys
  rw [hedges]
  exact List.nodup_nil

theorem implicit_edges_count {entities : List Entity} {g : DiGraph}
    (hedges : g.edges = [])
    (hnodes : ∀ x ∈ entities.map Entity.text, has_node g x = true) :
    (create_implicit_connections g entities).edges.length ≤ 30 := by
  have hnodup := @nodupkeys_implicit entities g hedges
  have hsub : ((create_implicit_connections g entities).edges.map ekey) ⊆
      implicit_pairs1 entities ++ implicit_pairs2 entities := by
    intro p hp
    simp only [List.mem_map] at hp
    obtain ⟨e, he, rfl⟩ := hp
    rcases (mem_implicit hedges hnodes e).mp he with ⟨h2, _⟩ | ⟨h1, _, _⟩
    · exact List.mem_append.mpr (Or.inr h2)
    · exact List.mem_append.mpr (Or.inl h1)
  have hle := (List.subperm_of_subset hnodup hsub).length_le
  rw [List.length_map] at hle
  refine le_trans hle ?_
  rw [List.length_append]
  unfold implicit_pairs1 implicit_pairs2
  rw [List.length_product, List.length_product]
  have t5 : ∀ l : List String, (l.take 5).length ≤ 5 := fun l => by
    rw [List.length_take]; omega
  have t3 : ∀ l : List String, (l.take 3).length ≤ 3 := fun l => by
    rw [List.length_take]; omega
  have h1 := Nat.mul_le_mul (t5 (person_texts entities)) (t3 (org_texts entities))
  have h2 := Nat.mul_le_mul (t5 (org_texts entities)) (t3 (gpe_texts entities))
  omega

/-! ## Claim theorems: knowledge graph -/

theorem build_graph_edges_eq (entities : List Entity) (relationships : Option (List Relationship)) :
    (build_graph entities relationships).edges =
      (graph_stage2 entities relationships).edges.map edge_to_dict := rfl

theorem build_graph_nodes_eq (entities : List Entity) (relationships : Option (List Relationship)) :
    (build_graph entities relationships).nodes =
      (graph_stage2 entities relationships).nodes.map
        (node_to_dict (graph_stage2 entities relationships)) := rfl

theorem stage1_has_all (entities : List Entity) (relationships : Option (List Relationship)) :
    ∀ x ∈ entities.map Entity.text, has_node (graph_stage1 entities relationships) x = true := by
  intro x hx
  unfold graph_stage1
  rw [has_node_congr (add_explicit_nodes _ _)]
  exact (has_node_add_entity_nodes entities x).mpr hx

theorem stage2_nodes (entities : List Entity) (relationships : Option (List Relationship)) :
    (graph_stage2 entities relationships).nodes = (graph_stage1 entities relationships).nodes := by
  unfold graph_stage2
  split_ifs with hc
  · exact create_implicit_nodes entities (stage1_has_all entities relationships)
  · rfl

theorem fallback_stage1_edges_nil {entities : List Entity}
    {relationships : Option (List Relationship)}
    (hfb : falsy_rels relationships = true ∨ (graph_stage1 entities relationships).edges = []) :
    (graph_stage1 entities relationships).edges = [] := by
  rcases hfb with hf | he
  · cases relationships with
    | none => exact add_entity_nodes_edges entities
    | some rs =>
      unfold falsy_rels at hf
      rw [List.isEmpty_iff] at hf
      subst hf
      exact add_entity_nodes_edges entities
  · exact he

theorem stage2_cond_iff {entities : List Entity} {relationships : Option (List Relationship)} :
    (falsy_rels relationships || (graph_stage1 entities relationships).edges.length = 0) = true ↔
      (falsy_rels relationships = true ∨ (graph_stage1 entities relationships).edges = []) := by
  rw [Bool.or_eq_true, decide_eq_true_eq, List.length_eq_zero]

/-- Claim C2 (graph edge validity): every edge of the graph returned by
`build_graph` has both its source and its target present among the entity
texts of the input, and both endpoints are present as nodes of the
returned graph; relationships referencing unknown entities never create
an edge, and synthesized implicit edges also only connect existing
nodes. -/
theorem graph_edge_validity (entities : List Entity) (relationships : Option (List Relationship))
    (eo : EdgeOut) (heo : eo ∈ (build_graph entities relationships).edges) :
    (eo.source ∈ entities.map Entity.text ∧
      ∃ no ∈ (build_graph entities relationships).nodes, no.id = eo.source) ∧
    (eo.target ∈ entities.map Entity.text ∧
      ∃ no ∈ (build_graph entities relationships).nodes, no.id = eo.target) := by
  have hnodes1 := stage1_has_all entities relationships
  rw [build_graph_edges_eq, List.mem_map] at heo
  obtain ⟨e, he, rfl⟩ := heo
  have key : e.source ∈ entities.map Entity.text ∧ e.target ∈ entities.map Entity.text := by
    unfold graph_stage2 at he
    split_ifs at he with hc
    · have hnil : (graph_stage1 entities relationships).edges = [] :=
        fallback_stage1_edges_nil (stage2_cond_iff.mp hc)
      rcases (mem_implicit hnil hnodes1 e).mp he with ⟨h2, _⟩ | ⟨h1, _, _⟩
      · exact mem_pairs2_endpoints h2
      · exact mem_pairs1_endpoints h1
    · rcases mem_add_explicit e he with hg0 | ⟨h1, h2⟩
      · rw [add_entity_nodes_edges] at hg0
        cases hg0
      · exact ⟨(has_node_add_entity_nodes _ _).mp h1, (has_node_add_entity_nodes _ _).mp h2⟩
  have hnode : ∀ x ∈ entities.map Entity.text,
      ∃ no ∈ (build_graph entities relationships).nodes, no.id = x := by
    intro x hx
    have h2 : has_node (graph_stage2 entities relationships) x = true := by
      rw [has_node_congr (stage2_nodes entities relationships)]
      exact hnodes1 x hx
    unfold has_node at h2
    rw [List.any_eq_true] at h2
    obtain ⟨n, hn, hid⟩ := h2
    rw [decide_eq_true_eq] at hid
    refine ⟨node_to_dict (graph_stage2 entities relationships) n, ?_, hid⟩
    rw [build_graph_nodes_eq]
    exact List.mem_map_of_mem _ hn
  exact ⟨⟨key.1, hnode _ key.1⟩, ⟨key.2, hnode _ key.2⟩⟩

/-- Spec §8 scenario 8: `[{Acme Corp, ORG}, {John Smith, PERSON}]`. -/
def sample_entities : List Entity :=
  [⟨"Acme Corp", "ORG", 0, 9, none⟩, ⟨"John Smith", "PERSON", 20, 30, none⟩]

/-- An entity list in which the text `X` occurs both as a PERSON and as
an ORG, and `Y` both as an ORG and as a GPE. -/
def overlap_entities : List Entity :=
  [⟨"X", "PERSON", 0, 1, none⟩, ⟨"X", "ORG", 2, 3, none⟩,
   ⟨"Y", "ORG", 4, 5, none⟩, ⟨"Y", "GPE", 6, 7, none⟩]

/-- Claim C2 witness: the conclusion of `graph_edge_validity` at the
implicit edge `John Smith → Acme Corp` of the sample graph. -/
theorem graph_edge_validity_witness :
    (("John Smith" : String) ∈ sample_entities.map Entity.text ∧
      ∃ no ∈ (build_graph sample_entities none).nodes, no.id = "John Smith") ∧
    (("Acme Corp" : String) ∈ sample_entities.map Entity.text ∧
      ∃ no ∈ (build_graph sample_entities none).nodes, no.id = "Acme Corp") :=
  graph_edge_validity sample_entities none
    ⟨"John Smith", "Acme Corp", "associated_with", "associated_with"⟩ (by decide)

/-- Claim C3 counterexample: for `overlap_entities` (no relationships), the
claim predicts a synthesized edge `X → Y` with relation `associated_with`
(`X` is the first PERSON-type entity, `Y` the second ORG-type entity),
but the built graph carries `X → Y` with relation `located_in`: the
second implicit pass overwrote the relation on the shared
(source, target) pair, so the synthesized edge set is NOT exactly the
claimed one. -/
theorem implicit_fallback_counterexample :
    (("X", "Y") ∈ implicit_pairs1 overlap_entities) ∧
    (EdgeOut.mk "X" "Y" "associated_with" "associated_with") ∉
      (build_graph overlap_entities none).edges ∧
    (EdgeOut.mk "X" "Y" "located_in" "located_in") ∈
      (build_graph overlap_entities none).edges := by
  decide

/-- Claim C3 (amended): for every entity list and relationship list, if the
relationship list is absent/empty or the explicit pass produced zero
edges, then the edges of the built graph are exactly the pairs of
`implicit_pairs1` (first 5 PERSON texts × first 3 ORG texts) and
`implicit_pairs2` (first 5 ORG texts × first 3 GPE texts); an edge whose
(source, target) pair is produced by the second pass carries relation
`located_in` (the ORG→GPE pass overwrites the PERSON→ORG relation on a
shared pair), every other synthesized edge carries `associated_with`, and
at most 30 edges are synthesized.  If instead the relationship list is
non-empty and the explicit pass produced at least one edge, no implicit
edges are added: the result's edges are exactly the explicit ones. -/
theorem implicit_fallback (entities : List Entity) (relationships : Option (List Relationship)) :
    (falsy_rels relationships = true ∨ (graph_stage1 entities relationships).edges = [] →
      (∀ eo ∈ (build_graph entities relationships).edges,
          eo.label = eo.relation ∧
            (((eo.source, eo.target) ∈ implicit_pairs2 entities ∧ eo.relation = "located_in") ∨
              ((eo.source, eo.target) ∈ implicit_pairs1 entities ∧
                (eo.source, eo.target) ∉ implicit_pairs2 entities ∧
                eo.relation = "associated_with"))) ∧
      (∀ pr ∈ implicit_pairs1 entities ++ implicit_pairs2 entities,
          ∃ eo ∈ (build_graph entities relationships).edges,
            eo.source = pr.1 ∧ eo.target = pr.2) ∧
      (build_graph entities relationships).edges.length ≤ 30) ∧
    (falsy_rels relationships = false → (graph_stage1 entities relationships).edges ≠ [] →
      (build_graph entities relationships).edges =
        (graph_stage1 entities relationships).edges.map edge_to_dict) := by
  have hnodes1 := stage1_has_all entities relationships
  constructor
  · intro hfb
    have hnil : (graph_stage1 entities relationships).edges = [] :=
      fallback_stage1_edges_nil hfb
    have hcond : (falsy_rels relationships ||
        (graph_stage1 entities relationships).edges.length = 0) = true :=
      stage2_cond_iff.mpr (Or.inr hnil)
    have hstage2 : graph_stage2 entities relationships =
        create_implicit_connections (graph_stage1 entities relationships) entities := by
      unfold graph_stage2
      rw [if_pos hcond]
    refine ⟨?_, ?_, ?_⟩
    · intro eo heo
      rw [build_graph_edges_eq, hstage2, List.mem_map] at heo
      obtain ⟨e, he, rfl⟩ := heo
      refine ⟨rfl, ?_⟩
      exact (mem_implicit hnil hnodes1 e).mp he
    · intro pr hpr
      rw [List.mem_append] at hpr
      by_cases h2 : pr ∈ implicit_pairs2 entities
      · refine ⟨edge_to_dict ⟨pr.1, pr.2, "located_in"⟩, ?_, rfl, rfl⟩
        rw [build_graph_edges_eq, hstage2]
        refine List.mem_map_of_mem _ ?_
        exact (mem_implicit hnil hnodes1 _).mpr (Or.inl ⟨h2, rfl⟩)
      · have h1 : pr ∈ implicit_pairs1 entities := by
          rcases hpr with h | h
          · exact h
          · exact absurd h h2
        refine ⟨edge_to_dict ⟨pr.1, pr.2, "associated_with"⟩, ?_, rfl, rfl⟩
        rw [build_graph_edges_eq, hstage2]
        refine List.mem_map_of_mem _ ?_
        exact (mem_implicit hnil hnodes1 _).mpr (Or.inr ⟨h1, h2, rfl⟩)
    · rw [build_graph_edges_eq, hstage2, List.length_map]
      exact implicit_edges_count hnil hnodes1
  · intro hf hne
    have hcond : (falsy_rels relationships ||
        (graph_stage1 entities relationships).edges.length = 0) = false := by
      rw [Bool.or_eq_false_iff]
      refine ⟨hf, ?_⟩
      rw [decide_eq_false_iff_not]
      rw [Ne, ← List.length_eq_zero] at hne
      exact hne
    rw [build_graph_edges_eq]
    unfold graph_stage2
    rw [hcond]
    rfl

/-- Claim C3 witness: applying the fallback branch of `implicit_fallback`
to the sample entities (no relationships supplied) yields the implicit
`John Smith → Acme Corp` edge. -/
theorem implicit_fallback_witness :
    ∃ eo ∈ (build_graph sample_entities none).edges,
      eo.source = "John Smith" ∧ eo.target = "Acme Corp" := by
  have h := (implicit_fallback sample_entities none).1 (Or.inl (by decide))
  exact h.2.1 ("John Smith", "Acme Corp") (by decide)

/-- Claim C7 (density formula): the `density` statistic of every graph
built by `build_graph` is `0` when the graph has at most one node, and
`e / (n*(n-1))` when it has `n ≥ 2` nodes and `e` edges. -/
theorem density_formula (entities : List Entity) (relationships : Option (List Relationship)) :
    ((build_graph entities relationships).statistics.total_nodes ≤ 1 →
      (build_graph entities relationships).statistics.density = 0) ∧
    (2 ≤ (build_graph entities relationships).statistics.total_nodes →
      (build_graph entities relationships).statistics.density =
        ((build_graph entities relationships).statistics.total_edges : ℚ) /
          (((build_graph entities relationships).statistics.total_nodes : ℚ) *
            (((build_graph entities relationships).statistics.total_nodes : ℚ) - 1))) := by
  have h : ∀ n m : Nat, (n ≤ 1 → nx_density n m = 0) ∧
      (2 ≤ n → nx_density n m = (m : ℚ) / ((n : ℚ) * ((n : ℚ) - 1))) := by
    intro n m
    constructor
    · intro hn
      unfold nx_density
      rw [if_pos (Or.inr hn)]
    · intro hn
      unfold nx_density
      rcases Nat.eq_zero_or_pos m with rfl | hm
      · rw [if_pos (Or.inl rfl)]
        simp
      · rw [if_neg]
        push_neg
        exact ⟨by omega, by omega⟩
  exact h (graph_stage2 entities relationships).nodes.length
    (graph_stage2 entities relationships).edges.length

/-- Claim C7 witness: the density of the 2-node sample graph equals
`e / (n*(n-1))` by the second branch of `density_formula`. -/
theorem density_formula_witness :
    (build_graph sample_entities none).statistics.density =
      ((build_graph sample_entities none).statistics.total_edges : ℚ) /
        (((build_graph sample_entities none).statistics.total_nodes : ℚ) *
          (((build_graph sample_entities none).statistics.total_nodes : ℚ) - 1)) :=
  (density_formula sample_entities none).2 (by decide)

/-! ## Timeline builder (`AnalysisEngine._build_timeline`) -/

/-- A date mention from `extract_dates`: `{text, start, end}`. -/
structure DateItem where
  text : String
  start : Int
  end_ : Int
deriving DecidableEq, Repr

/-- One timeline entry:
`{date, position, related_entities, context}`. -/
structure TimelineEntry where
  date : String
  position : Int
  related_entities : List String
  context : String
deriving DecidableEq, Repr

/-- The sort key relation of `timeline.sort(key=lambda x: x['position'])`. -/
def timeline_le (a b : TimelineEntry) : Prop := a.position ≤ b.position

instance : DecidableRel timeline_le := fun a b => Int.decLe a.position b.position

instance : IsTotal TimelineEntry timeline_le :=
  ⟨fun a b => Int.le_total a.position b.position⟩

instance : IsTrans TimelineEntry timeline_le :=
  ⟨fun _ _ _ h1 h2 => le_trans h1 h2⟩

/-- Source `AnalysisEngine._build_timeline(dates, entities)`: for each date,
attach the texts of the first 5 entities whose `start` offset is within
100 characters of the date's `start`, then sort ascending by position.
Python's `list.sort` is a stable ascending sort, which insertion sort by
`timeline_le` reproduces exactly. -/
def build_timeline (dates : List DateItem) (entities : List Entity) : List TimelineEntry :=
  let timeline := dates.map (fun date_item =>
    let nearby_entities := entities.filter (fun e => |e.start - date_item.start| < 100)
    { date := date_item.text
      position := date_item.start
      related_entities := (nearby_entities.take 5).map Entity.text
      context := "event" })
  List.insertionSort timeline_le timeline

/-! ## Text statistics (`AnalysisEngine._calculate_text_statistics`) -/

/-- Python `str.split(sep)` generalized over a single-character
separator predicate: splits at every separator occurrence and keeps
empty pieces, so the result always has (number of separators + 1)
elements and is never the empty list. -/
def py_split (p : Char → Bool) : List Char → List (List Char)
  | [] => [[]]
  | c :: cs =>
      let r := py_split p cs
      if p c then [] :: r
      else
        match r with
        | [] => [[c]]
        | w :: ws => (c :: w) :: ws

/-- Python `text.split()` (no argument): split on whitespace and drop
empty pieces. -/
def py_words (t : List Char) : List (List Char) :=
  (py_split (fun c => c.isWhitespace) t).filter (fun w => !w.isEmpty)

/-- Python `text.split('.')`. -/
def py_sentences (t : List Char) : List (List Char) :=
  py_split (fun c => c = '.') t

/-- The statistics dict returned by `_calculate_text_statistics`. -/
structure TextStats where
  total_characters : Nat
  total_words : Nat
  total_sentences : Nat
  avg_word_length : ℚ
  avg_sentence_length : ℚ
  unique_words : Nat
  vocabulary_richness : ℚ
deriving DecidableEq, Repr

/-- Source `AnalysisEngine._calculate_text_statistics(text)`.  Guards of the
form `x / y if words else 0` become `if words.isEmpty then 0 else x / y`;
`len(set(words))` is the number of distinct words. -/
def calculate_text_statistics (text : List Char) : TextStats :=
  let words := py_words text
  let sentences := py_sentences text
  { total_characters := text.length
    total_words := words.length
    total_sentences := sentences.length
    avg_word_length :=
      if words.isEmpty then 0 else ((words.map List.length).sum : ℚ) / (words.length : ℚ)
    avg_sentence_length :=
      if sentences.isEmpty then 0 else (words.length : ℚ) / (sentences.length : ℚ)
    unique_words := words.dedup.length
    vocabulary_richness :=
      if words.isEmpty then 0 else (words.dedup.length : ℚ) / (words.length : ℚ) }

/-! ## Confidence score (`AnalysisEngine._calculate_confidence`) -/

/-- The three score fields `_calculate_confidence` probes in an analysis
record: `classification.confidence`, `sentiment.average_score`, and
`ocr_confidence`.  `none` models an absent key (or an absent parent
dict). -/
structure InsightSource where
  classification_confidence : Option ℚ
  sentiment_average_score : Option ℚ
  ocr_confidence : Option ℚ
deriving DecidableEq, Repr

/-- Source `AnalysisEngine._calculate_confidence(analysis)`: each score is
appended when `if analysis.get(...).get(...):` is TRUTHY — a present key
with value `0` is skipped, exactly like an absent key.  Returns the mean
of the appended scores, `0.5` when none was appended. -/
def calculate_confidence (a : InsightSource) : ℚ :=
  let scores : List ℚ :=
    (match a.classification_confidence with
      | some x => if x = 0 then [] else [x]
      | none => []) ++
    (match a.sentiment_average_score with
      | some x => if x = 0 then [] else [x]
      | none => []) ++
    (match a.ocr_confidence with
      | some x => if x = 0 then [] else [x]
      | none => [])
  if scores.isEmpty then 1 / 2 else scores.sum / (scores.length : ℚ)

/-- Modelled from the claim's words: the arithmetic mean of whichever of
the three scores are PRESENT in the record (`0.5` if none is present),
with no truthiness filtering. -/
def confidence_present_mean (a : InsightSource) : ℚ :=
  let scores :=
    [a.classification_confidence, a.sentiment_average_score, a.ocr_confidence].filterMap id
  if scores.isEmpty then 1 / 2 else scores.sum / (scores.length : ℚ)

/-- The claim amended to Python truthiness: the mean of whichever of the
three scores are present WITH A NONZERO value (`0.5` if none is). -/
def confidence_truthy_mean (a : InsightSource) : ℚ :=
  let scores :=
    ([a.classification_confidence, a.sentiment_average_score, a.ocr_confidence].filterMap id).filter
      (fun x => x ≠ 0)
  if scores.isEmpty then 1 / 2 else scores.sum / (scores.length : ℚ)

/-! ## Claim theorems: timeline, statistics, confidence -/

/-- Claim C6 (timeline ordering): for every dates and entities input, the
list returned by `_build_timeline` is sorted non-decreasing in the
`position` field. -/
theorem timeline_ordering (dates : List DateItem) (entities : List Entity) :
    (build_timeline dates entities).Sorted timeline_le :=
  List.sorted_insertionSort timeline_le _

/-- Claim C5 (timeline proximity): for every date item `d` of the input,
the built timeline contains an entry for `d` whose `related_entities`
are exactly the texts of the first 5 entities (in entity-list order)
whose start offset differs from `d.start` by STRICTLY less than 100; an
entity at distance exactly 100 is never attached (`natAbs ... < 100`
fails at 100). -/
theorem timeline_proximity (dates : List DateItem) (entities : List Entity)
    (d : DateItem) (hd : d ∈ dates) :
    ∃ entry ∈ build_timeline dates entities,
      entry.date = d.text ∧ entry.position = d.start ∧
        entry.related_entities =
          ((entities.filter (fun e => (e.start - d.start).natAbs < 100)).take 5).map
            Entity.text := by
  refine ⟨⟨d.text, d.start,
    ((entities.filter (fun e => |e.start - d.start| < 100)).take 5).map Entity.text,
    "event"⟩, ?_, rfl, rfl, ?_⟩
  · unfold build_timeline
    rw [(List.perm_insertionSort timeline_le _).mem_iff]
    exact List.mem_map_of_mem _ hd
  · have hfil : entities.filter (fun e => |e.start - d.start| < 100) =
        entities.filter (fun e => (e.start - d.start).natAbs < 100) := by
      apply List.filter_congr
      intro e _
      have habs : |e.start - d.start| < 100 ↔ (e.start - d.start).natAbs < 100 := by
        rw [Int.abs_eq_natAbs]
        omega
      exact decide_eq_decide.mpr habs
    rw [hfil]

/-- Sample dates for the timeline scenario of spec §8 (scenario 9). -/
def sample_dates : List DateItem := [⟨"2024-01-01", 500, 510⟩]

/-- Entities at distance 50 (attached), exactly 100 (must NOT be
attached), and 200 (not attached) from the sample date. -/
def timeline_entities : List Entity :=
  [⟨"Near Corp", "ORG", 550, 559, none⟩, ⟨"Boundary Co", "ORG", 600, 609, none⟩,
   ⟨"Far Corp", "ORG", 700, 709, none⟩]

/-- Claim C5 witness: the sample date's entry attaches only the entity at
distance 50 — the entity at distance exactly 100 is excluded. -/
theorem timeline_proximity_witness :
    ∃ entry ∈ build_timeline sample_dates timeline_entities,
      entry.date = "2024-01-01" ∧ entry.position = 500 ∧
        entry.related_entities = ["Near Corp"] := by
  obtain ⟨entry, hmem, h1, h2, h3⟩ :=
    timeline_proximity sample_dates timeline_entities ⟨"2024-01-01", 500, 510⟩ (by decide)
  refine ⟨entry, hmem, h1, h2, ?_⟩
  rw [h3]
  decide

theorem py_split_ne_nil (p : Char → Bool) (t : List Char) : py_split p t ≠ [] := by
  induction t with
  | nil => simp [py_split]
  | cons c cs ih =>
    unfold py_split
    split_ifs
    · simp
    · cases h : py_split p cs with
      | nil => simp
      | cons w ws => simp

/-- Claim C10 (text-statistics totality): splitting on `'.'` always yields
at least one piece, so `total_sentences ≥ 1` for every text (and exactly
1 for empty text), the `avg_sentence_length` division is never by zero
(its denominator `total_sentences` is positive and the guard's 0-branch
is unreachable), and a text with no words reports zero `total_words`,
`avg_word_length` and `vocabulary_richness`. -/
theorem text_statistics_totality (text : List Char) :
    1 ≤ (calculate_text_statistics text).total_sentences ∧
    (calculate_text_statistics ([] : List Char)).total_sentences = 1 ∧
    (calculate_text_statistics text).avg_sentence_length =
      ((calculate_text_statistics text).total_words : ℚ) /
        ((calculate_text_statistics text).total_sentences : ℚ) ∧
    ((calculate_text_statistics text).total_words = 0 →
      (calculate_text_statistics text).avg_word_length = 0 ∧
      (calculate_text_statistics text).vocabulary_richness = 0) := by
  have hne : py_sentences text ≠ [] := py_split_ne_nil _ _
  refine ⟨?_, rfl, ?_, ?_⟩
  · have := List.length_pos.mpr hne
    exact this
  · have hie : ¬((py_sentences text).isEmpty = true) := by
      rw [List.isEmpty_iff]
      exact hne
    show (if (py_sentences text).isEmpty then 0
        else ((py_words text).length : ℚ) / ((py_sentences text).length : ℚ)) = _
    rw [if_neg hie]
    rfl
  · intro hw
    have hwords : py_words text = [] := List.length_eq_zero.mp hw
    have hie : (py_words text).isEmpty = true := by
      rw [hwords]
      rfl
    constructor
    · show (if (py_words text).isEmpty then 0
          else (((py_words text).map List.length).sum : ℚ) / ((py_words text).length : ℚ)) = 0
      rw [if_pos hie]
    · show (if (py_words text).isEmpty then 0
          else (((py_words text).dedup.length : ℚ)) / ((py_words text).length : ℚ)) = 0
      rw [if_pos hie]

/-- Claim C10 witness: the statistics of the empty text, by
`text_statistics_totality` applied at `[]` with its hypotheses
discharged there. -/
theorem text_statistics_totality_witness :
    (calculate_text_statistics ([] : List Char)).total_sentences = 1 ∧
    (calculate_text_statistics ([] : List Char)).avg_word_length = 0 ∧
    (calculate_text_statistics ([] : List Char)).vocabulary_richness = 0 := by
  have h := text_statistics_totality []
  exact ⟨h.2.1, (h.2.2.2 (by decide)).1, (h.2.2.2 (by decide)).2⟩

/-- Claim C8 counterexample: a record whose classification confidence is
PRESENT with value `0` (exactly what the classifier's error fallback
`{'category': 'other', 'confidence': 0.0}` produces) and whose sentiment
average score is `1/2`.  The claim's mean over present fields would be
`(0 + 1/2) / 2 = 1/4`, but `_calculate_confidence` skips the falsy `0`
and returns `1/2`. -/
theorem confidence_counterexample :
    calculate_confidence ⟨some 0, some (1 / 2), none⟩ ≠
      confidence_present_mean ⟨some 0, some (1 / 2), none⟩ ∧
    calculate_confidence ⟨some 0, some (1 / 2), none⟩ = 1 / 2 ∧
    confidence_present_mean ⟨some 0, some (1 / 2), none⟩ = 1 / 4 := by
  have h1 : calculate_confidence ⟨some 0, some (1 / 2), none⟩ = 1 / 2 := by
    simp only [calculate_confidence]
    norm_num
  have h2 : confidence_present_mean ⟨some 0, some (1 / 2), none⟩ = 1 / 4 := by
    have hs : ([some (0 : ℚ), some (1 / 2), none].filterMap id) = [0, 1 / 2] := rfl
    simp only [confidence_present_mean]
    rw [hs]
    norm_num [List.sum_cons]
  exact ⟨by rw [h1, h2]; norm_num, h1, h2⟩

/-- Claim C8 (amended): `_calculate_confidence` returns the arithmetic
mean of whichever of classification confidence, sentiment average score,
and OCR confidence are present in the record WITH A NONZERO (truthy)
value, and `0.5` when no such value is present — a key present with
value `0` is treated like an absent key. -/
theorem confidence_score (a : InsightSource) :
    calculate_confidence a = confidence_truthy_mean a := by
  obtain ⟨c, s, o⟩ := a
  unfold calculate_confidence confidence_truthy_mean
  rcases c with _ | x <;> rcases s with _ | y <;> rcases o with _ | z <;>
    simp only [List.filterMap_cons, List.filterMap_nil, Option.some.injEq, id] <;>
    [skip; by_cases hz : z = 0; by_cases hy : y = 0;
     (by_cases hy : y = 0 <;> by_cases hz : z = 0); by_cases hx : x = 0;
     (by_cases hx : x = 0 <;> by_cases hz : z = 0);
     (by_cases hx : x = 0 <;> by_cases hy : y = 0);
     (by_cases hx : x = 0 <;> by_cases hy : y = 0 <;> by_cases hz : z = 0)] <;>
    simp_all [List.filter]

/-! ## Analysis orchestrator (`AnalysisEngine.analyze_document`) -/

/-- Output dict of `ner_model.extract_entities` as the orchestrator
consumes it. -/
structure NerResults where
  entities : List Entity
  total_entities : Nat
  entity_counts : List (String × Nat)
  unique_entities : List (String × List String)
  entity_types : List String
deriving DecidableEq, Repr

/-- Output dict of `sentiment_model.analyze_text_chunks`. -/
structure Sentiment where
  overall_sentiment : String
  average_score : ℚ
  positive_chunks : Nat
  total_chunks : Nat
deriving DecidableEq, Repr

/-- Output dict of `doc_classifier.classify_document`; an empty
`category` string is Python-falsy (skips the metadata step). -/
structure Classification where
  category : String
  confidence : ℚ
  scores : List (String × ℚ)
deriving DecidableEq, Repr

/-- Output dict of `doc_classifier.get_document_structure`. -/
structure DocStructure where
  total_lines : Nat
  non_empty_lines : Nat
  average_line_length : ℚ
  has_headers : Bool
  has_tables : Bool
  has_lists : Bool
deriving DecidableEq, Repr

/-- Category-specific metadata from `extract_document_metadata`: an
opaque key-value payload for the orchestrator. -/
abbrev Metadata := List (String × String)

/-- The aggregate analysis record assembled by `analyze_document`.
Fields added after the initial `{document_id, analyzed_at, status}` dict
are `Option`s: all `some` on the success path, all `none` in the failure
record. -/
structure AnalysisResult where
  document_id : String
  analyzed_at : Nat
  status : String
  error : Option String
  entities : Option NerResults
  sentiment : Option Sentiment
  classification : Option Classification
  relationships : Option (List Relationship)
  knowledge_graph : Option GraphData
  dates : Option (List DateItem)
  timeline : Option (List TimelineEntry)
  key_phrases : Option (List String)
  structure_ : Option DocStructure
  extracted_metadata : Option Metadata
  statistics : Option TextStats
deriving DecidableEq, Repr

/-- The black-box analyzer collaborators (spec §1 scopes them out as
external services); each call either returns a payload or raises
(`Except.error` carrying `str(e)`). -/
structure Analyzers where
  extract_entities : String → Except String NerResults
  analyze_text_chunks : String → Except String Sentiment
  classify_document : String → Except String Classification
  extract_relationships : String → Except String (List Relationship)
  extract_dates : String → Except String (List DateItem)
  extract_key_phrases : String → Except String (List String)
  get_document_structure : String → Except String DocStructure
  extract_document_metadata : String → String → Except String Metadata

/-- Everything the `try:` block of `analyze_document` computes through
its analyzer calls, before any persistence effect. -/
structure Payload where
  ner : NerResults
  sentiment : Sentiment
  classification : Classification
  relationships : List Relationship
  dates : List DateItem
  key_phrases : List String
  structure_ : DocStructure
  extracted_metadata : Option Metadata
deriving DecidableEq, Repr

/-- Run the analyzer calls of `analyze_document` in source order (steps
1-9), recording the names of the analyzers invoked and stopping at the
first raised exception.  The pure stages — knowledge-graph build,
timeline build, text statistics — cannot raise and are computed from the
payload in `assemble_results`.  Step 9 runs only when the classifier's
`category` is truthy (non-empty). -/
def run_analyzers (A : Analyzers) (text : String) : Except String Payload × List String :=
  match A.extract_entities text with
  | .error e => (.error e, ["ner"])
  | .ok ner =>
    match A.analyze_text_chunks text with
    | .error e => (.error e, ["ner", "sentiment"])
    | .ok sentiment =>
      match A.classify_document text with
      | .error e => (.error e, ["ner", "sentiment", "classification"])
      | .ok classification =>
        match A.extract_relationships text with
        | .error e => (.error e, ["ner", "sentiment", "classification", "relationships"])
        | .ok relationships =>
          match A.extract_dates text with
          | .error e => (.error e, ["ner", "sentiment", "classification", "relationships",
              "dates"])
          | .ok dates =>
            match A.extract_key_phrases text with
            | .error e => (.error e, ["ner", "sentiment", "classification", "relationships",
                "dates", "key_phrases"])
            | .ok key_phrases =>
              match A.get_document_structure text with
              | .error e => (.error e, ["ner", "sentiment", "classification", "relationships",
                  "dates", "key_phrases", "doc_structure"])
              | .ok structure_ =>
                if classification.category = "" then
                  (.ok ⟨ner, sentiment, classification, relationships, dates, key_phrases,
                      structure_, none⟩,
                   ["ner", "sentiment", "classification", "relationships", "dates",
                    "key_phrases", "doc_structure"])
                else
                  match A.extract_document_metadata text classification.category with
                  | .error e => (.error e, ["ner", "sentiment", "classification",
                      "relationships", "dates", "key_phrases", "doc_structure", "metadata"])
                  | .ok md =>
                    (.ok ⟨ner, sentiment, classification, relationships, dates, key_phrases,
                        structure_, some md⟩,
                     ["ner", "sentiment", "classification", "relationships", "dates",
                      "key_phrases", "doc_structure", "metadata"])

/-- Projection of `run_analyzers` to the first raised exception, if
any. -/
def pipeline_error (A : Analyzers) (text : String) : Option String :=
  match (run_analyzers A text).1 with
  | .error e => some e
  | .ok _ => none

/-- The success-path record (`status := 'completed'`, set when the
results dict is created and never changed on this path). -/
def assemble_results (document_id : String) (now : Nat) (p : Payload) (text : String) :
    AnalysisResult :=
  { document_id := document_id
    analyzed_at := now
    status := "completed"
    error := none
    entities := some p.ner
    sentiment := some p.sentiment
    classification := some p.classification
    relationships := some p.relationships
    knowledge_graph := some (build_graph p.ner.entities (some p.relationships))
    dates := some p.dates
    timeline := some (build_timeline p.dates p.ner.entities)
    key_phrases := some p.key_phrases
    structure_ := some p.structure_
    extracted_metadata := p.extracted_metadata
    statistics := some (calculate_text_statistics text.data) }

/-- The record returned from the `except` branch of `analyze_document`:
only `{document_id, status: failed, error, analyzed_at}`. -/
def failed_result (document_id e : String) (now : Nat) : AnalysisResult :=
  { document_id := document_id
    analyzed_at := now
    status := "failed"
    error := some e
    entities := none
    sentiment := none
    classification := none
    relationships := none
    knowledge_graph := none
    dates := none
    timeline := none
    key_phrases := none
    structure_ := none
    extracted_metadata := none
    statistics := none }

/-! ## Mongo store, Redis cache and the orchestrator control flow -/

/-- A document row in the Mongo `documents` collection (the fields the
core reads/writes). -/
structure DocRecord where
  text_content : String
  analysis_status : String
  error : Option String
  analyzed_at : Option Nat
deriving DecidableEq, Repr

/-- One row of the `entities` collection, as written by
`_save_analysis_results`. -/
structure EntityRow where
  document_id : String
  entity_text : String
  entity_type : String
  start_pos : Int
  end_pos : Int
  description : Option String
  created_at : Nat
deriving DecidableEq, Repr

/-- One row of the `analysis` collection, as written by
`_save_analysis_results` (`results.get(..., {})` of an absent key is
modelled as `none`). -/
structure AnalysisRow where
  document_id : String
  analysis_type : String
  sentiment : Option Sentiment
  classification : Option Classification
  statistics : Option TextStats
  structure_ : Option DocStructure
  analyzed_at : Nat
deriving DecidableEq, Repr

/-- The Mongo store: documents keyed by id, append-only entity and
analysis collections, and a clock standing for `datetime.utcnow()`. -/
structure MongoState where
  documents : List (String × DocRecord)
  entities : List EntityRow
  analyses : List AnalysisRow
  clock : Nat
deriving DecidableEq, Repr

/-- Source `mongodb.get_document(document_id)`. -/
def get_document (db : MongoState) (document_id : String) : Option DocRecord :=
  (db.documents.find? (fun kv => kv.1 = document_id)).map Prod.snd

/-- Source `mongodb.update_document(document_id, fields)` for a given
field update `f` (`update_one` with `$set`; no-op when the id is
absent). -/
def update_document_fields (db : MongoState) (document_id : String)
    (f : DocRecord → DocRecord) : MongoState :=
  { db with documents :=
      db.documents.map (fun kv => if kv.1 = document_id then (kv.1, f kv.2) else kv) }

/-- Fault injection for the three persistence calls inside
`_save_analysis_results`: a `true` flag makes that call raise instead of
writing.  The `except` inside `_save_analysis_results` swallows the
exception, abandoning the remaining persistence steps — nothing
propagates to `analyze_document`. -/
structure DbFaults where
  insert_entities_raises : Bool
  insert_analysis_raises : Bool
  update_document_raises : Bool
deriving DecidableEq, Repr

/-- The entity rows built by `_save_analysis_results`
(`entity.get('description', '')` returns the stored value, possibly
`None`, because the key is always present). -/
def entity_rows (document_id : String) (now : Nat) (es : List Entity) : List EntityRow :=
  es.map (fun e => ⟨document_id, e.text, e.label, e.start, e.end_, e.description, now⟩)

/-- Source `AnalysisEngine._save_analysis_results(document_id, results)`:
insert entity rows when `results.get('entities', {}).get('entities')` is
truthy (a non-empty list), insert the aggregate analysis row, update the
parent document to `analysis_status='completed'`.  A raising call
performs no write and aborts the remaining steps (its exception is
caught and only logged). -/
def save_analysis_results (f : DbFaults) (db : MongoState) (document_id : String)
    (results : AnalysisResult) : MongoState :=
  let needEntities : Bool := match results.entities with
    | some ner => !ner.entities.isEmpty
    | none => false
  if needEntities && f.insert_entities_raises then db
  else
    let db1 := if needEntities then
        { db with entities := db.entities ++
            entity_rows document_id db.clock ((results.entities.map NerResults.entities).getD []) }
      else db
    if f.insert_analysis_raises then db1
    else
      let db2 := { db1 with analyses := db1.analyses ++
          [⟨document_id, "complete", results.sentiment, results.classification,
            results.statistics, results.structure_, db.clock⟩] }
      if f.update_document_raises then db2
      else update_document_fields db2 document_id
        (fun d => { d with analysis_status := "completed", analyzed_at := some db.clock })

/-- The Redis cache: a connected flag and a keyed store.  All cache
operations degrade to no-op/miss when not connected or on error. -/
structure CacheState where
  connected : Bool
  store : List ((String × String) × AnalysisResult)
deriving DecidableEq, Repr

/-- Source `redis_client.get_cached_analysis(doc_id, analysis_type)`
(key `analysis:{doc_id}:{analysis_type}`); returns `None` when
disconnected and never raises. -/
def get_cached_analysis (c : CacheState) (document_id analysis_type : String) :
    Option AnalysisResult :=
  if c.connected then
    (c.store.find? (fun kv => kv.1 = (document_id, analysis_type))).map Prod.snd
  else none

/-- Source `redis_client.cache_analysis(doc_id, analysis_type, data)`:
overwrites the key when connected, no-op otherwise; never raises. -/
def cache_analysis (c : CacheState) (document_id analysis_type : String)
    (data : AnalysisResult) : CacheState :=
  if c.connected then
    { c with store := ((document_id, analysis_type), data) ::
        c.store.filter (fun kv => kv.1 ≠ (document_id, analysis_type)) }
  else c

/-- The observable outcome of one `analyze_document` run: the returned
record, the final store and cache, and the names of the analyzers that
were invoked. -/
structure AnalyzeOutcome where
  result : AnalysisResult
  db : MongoState
  cache : CacheState
  invoked : List String
deriving DecidableEq, Repr

/-- The body of the `try:` block of `analyze_document` past the cache
check, plus its `except` branch: on an analyzer exception return the
failed record and touch neither store nor cache (the `except` branch
performs no persistence); on success persist via
`_save_analysis_results`, cache the record, and return it. -/
def analyze_run (A : Analyzers) (f : DbFaults) (db : MongoState) (cache : CacheState)
    (document_id text : String) : AnalyzeOutcome :=
  match run_analyzers A text with
  | (.error e, invoked) => ⟨failed_result document_id e db.clock, db, cache, invoked⟩
  | (.ok p, invoked) =>
      let results := assemble_results document_id db.clock p text
      let db1 := save_analysis_results f db document_id results
      let cache1 := cache_analysis cache document_id "complete" results
      ⟨results, db1, cache1, invoked⟩

/-- Source `AnalysisEngine.analyze_document(document_id, text, force)`:
when `force` is false and the cache holds a (necessarily truthy) record
under `(document_id, 'complete')`, return it with no analyzer invoked;
otherwise run the pipeline. -/
def analyze_document (A : Analyzers) (f : DbFaults) (db : MongoState) (cache : CacheState)
    (document_id text : String) (force : Bool) : AnalyzeOutcome :=
  if force = false then
    match get_cached_analysis cache document_id "complete" with
    | some cached => ⟨cached, db, cache, []⟩
    | none => analyze_run A f db cache document_id text
  else analyze_run A f db cache document_id text

/-- An HTTP-level response of the analysis route. -/
inductive RouteResponse where
  | ok (document_id : String) (status : String)
  | httpError (code : Nat) (detail : String)
deriving DecidableEq, Repr

/-- Source `routes/analysis.analyze_document` (the POST `/analyze`
handler): 404 when the document is missing, 400 `"Document has no text
content"` when `document.get('text_content', '')` is falsy — in which
case no background task is scheduled and no analyzer ever runs — else
set the document's status to `processing` and run the background
analysis task (modelled inline: the returned state is the state after
the task completes, while the HTTP response is the immediate
`processing` acknowledgement). -/
def route_analyze_document (A : Analyzers) (f : DbFaults) (db : MongoState)
    (cache : CacheState) (document_id : String) (force : Bool) :
    RouteResponse × MongoState × CacheState × List String :=
  match get_document db document_id with
  | none => (.httpError 404 "Document not found", db, cache, [])
  | some document =>
      if document.text_content = "" then
        (.httpError 400 "Document has no text content", db, cache, [])
      else
        let db1 := update_document_fields db document_id
          (fun d => { d with analysis_status := "processing" })
        let out := analyze_document A f db1 cache document_id document.text_content force
        (.ok document_id "processing", out.db, out.cache, out.invoked)

/-! ## Claim theorems: orchestrator -/

theorem get_cached_after_set (c : CacheState) (i t : String) (d : AnalysisResult)
    (hc : c.connected = true) :
    get_cached_analysis (cache_analysis c i t d) i t = some d := by
  unfold get_cached_analysis cache_analysis
  rw [if_pos hc]
  simp [hc, List.find?]

/-- Claim C4 (cache-first short-circuit): if `force` is false and the
cache holds a complete analysis under `(document_id, 'complete')`,
`analyze_document` returns that record unchanged, touches neither store
nor cache, and invokes no analyzer; consequently, when the first of two
successive `force=false` calls runs the pipeline without an analyzer
exception and the connected cache is populated by it, the second call
returns the identical result with no analyzer invoked and no state
change. -/
theorem cache_first_idempotence (A : Analyzers) (f : DbFaults) (db : MongoState)
    (cache : CacheState) (document_id text : String) :
    (∀ r, get_cached_analysis cache document_id "complete" = some r →
      analyze_document A f db cache document_id text false = ⟨r, db, cache, []⟩) ∧
    (get_cached_analysis cache document_id "complete" = none →
      pipeline_error A text = none →
      cache.connected = true →
      analyze_document A f
          (analyze_document A f db cache document_id text false).db
          (analyze_document A f db cache document_id text false).cache
          document_id text false =
        ⟨(analyze_document A f db cache document_id text false).result,
         (analyze_document A f db cache document_id text false).db,
         (analyze_document A f db cache document_id text false).cache, []⟩) := by
  constructor
  · intro r hr
    unfold analyze_document
    simp [hr]
  · intro hmiss herr hconn
    have h1 : analyze_document A f db cache document_id text false =
        analyze_run A f db cache document_id text := by
      unfold analyze_document
      simp [hmiss]
    rcases hra : run_analyzers A text with ⟨exc, tr⟩
    cases exc with
    | error e =>
      exfalso
      unfold pipeline_error at herr
      rw [hra] at herr
      simp at herr
    | ok p =>
      have h2 : analyze_run A f db cache document_id text =
          ⟨assemble_results document_id db.clock p text,
           save_analysis_results f db document_id (assemble_results document_id db.clock p text),
           cache_analysis cache document_id "complete"
             (assemble_results document_id db.clock p text),
           tr⟩ := by
        unfold analyze_run
        rw [hra]
      rw [h1, h2]
      have hhit := get_cached_after_set cache document_id "complete"
        (assemble_results document_id db.clock p text) hconn
      unfold analyze_document
      simp only [hhit]
      rfl

/-- Sample analyzer payloads for the witnesses: every analyzer
succeeds. -/
def sample_ner : NerResults := ⟨sample_entities, 2, [("ORG", 1), ("PERSON", 1)], [], ["ORG", "PERSON"]⟩

def sample_sentiment : Sentiment := ⟨"positive", 9 / 10, 2, 2⟩

def sample_classification : Classification := ⟨"report", 3 / 4, []⟩

def sample_structure : DocStructure := ⟨3, 2, 10, false, false, true⟩

def sample_analyzers : Analyzers :=
  ⟨fun _ => .ok sample_ner, fun _ => .ok sample_sentiment, fun _ => .ok sample_classification,
   fun _ => .ok [], fun _ => .ok sample_dates, fun _ => .ok ["key phrase"],
   fun _ => .ok sample_structure, fun _ _ => .ok [("pages", "3")]⟩

def no_faults : DbFaults := ⟨false, false, false⟩

def sample_db : MongoState := ⟨[("doc1", ⟨"Acme text", "processing", none, none⟩)], [], [], 42⟩

def connected_empty_cache : CacheState := ⟨true, []⟩

/-- Claim C4 witness: with all analyzers succeeding and the connected
cache populated by the first call, the second `force=false` call returns
the identical outcome with no analyzer invoked. -/
theorem cache_first_idempotence_witness :
    analyze_document sample_analyzers no_faults
        (analyze_document sample_analyzers no_faults sample_db connected_empty_cache
          "doc1" "Acme text" false).db
        (analyze_document sample_analyzers no_faults sample_db connected_empty_cache
          "doc1" "Acme text" false).cache
        "doc1" "Acme text" false =
      ⟨(analyze_document sample_analyzers no_faults sample_db connected_empty_cache
          "doc1" "Acme text" false).result,
       (analyze_document sample_analyzers no_faults sample_db connected_empty_cache
          "doc1" "Acme text" false).db,
       (analyze_document sample_analyzers no_faults sample_db connected_empty_cache
          "doc1" "Acme text" false).cache, []⟩ :=
  (cache_first_idempotence sample_analyzers no_faults sample_db connected_empty_cache
    "doc1" "Acme text").2 rfl rfl rfl

/-- Analyzer bundle whose classifier raises `"boom"` mid-pipeline. -/
def failing_analyzers : Analyzers :=
  { sample_analyzers with classify_document := fun _ => .error "boom" }

/-- Claim C1 counterexample: when the classifier raises mid-pipeline,
`analyze_document` returns the failed record carrying the message and no
analysis record is persisted — but, contrary to the claim, the parent
document's persisted status is NOT updated to `failed`: it stays
`processing` (the `except` branch of `analyze_document` performs no
store write, and the `failed`-status write in the route's background
task is dead code because `analyze_document` never re-raises). -/
theorem analyzer_failure_counterexample :
    (analyze_document failing_analyzers no_faults sample_db connected_empty_cache
        "doc1" "Acme text" true).result.status = "failed" ∧
    (analyze_document failing_analyzers no_faults sample_db connected_empty_cache
        "doc1" "Acme text" true).result.error = some "boom" ∧
    ((analyze_document failing_analyzers no_faults sample_db connected_empty_cache
        "doc1" "Acme text" true).db.documents.find? (fun kv => kv.1 = "doc1")).map
      (fun kv => kv.2.analysis_status) = some "processing" ∧
    (analyze_document failing_analyzers no_faults sample_db connected_empty_cache
        "doc1" "Acme text" true).db.analyses = [] := by
  refine ⟨rfl, rfl, rfl, rfl⟩

/-- Claim C1 (amended): for every run that actually enters the pipeline
(`force` true, or a cache miss), if some analyzer raises then
`analyze_document` returns a record with status `failed` carrying the
captured error message, and the whole store and cache are left unchanged
— in particular no analysis record is persisted for that run AND the
parent document's persisted status is NOT updated to `failed` (it keeps
whatever value it had, e.g. `processing`).  If instead no analyzer
raises, the run returns status `completed` even when persistence calls
inside `_save_analysis_results` raise: those exceptions are swallowed
there and never turn the result into a failure. -/
theorem analyzer_failure_handling (A : Analyzers) (f : DbFaults) (db : MongoState)
    (cache : CacheState) (document_id text : String) (force : Bool)
    (hrun : force = true ∨ get_cached_analysis cache document_id "complete" = none) :
    (∀ e, pipeline_error A text = some e →
      analyze_document A f db cache document_id text force =
        ⟨failed_result document_id e db.clock, db, cache,
         (run_analyzers A text).2⟩) ∧
    (pipeline_error A text = none →
      (analyze_document A f db cache document_id text force).result.status = "completed") := by
  have hred : analyze_document A f db cache document_id text force =
      analyze_run A f db cache document_id text := by
    cases force with
    | true =>
      unfold analyze_document
      rw [if_neg (by simp)]
    | false =>
      rcases hrun with h | hmiss
      · cases h
      · unfold analyze_document
        rw [if_pos rfl, hmiss]
  constructor
  · intro e he
    unfold pipeline_error at he
    rcases hra : run_analyzers A text with ⟨exc, tr⟩
    rw [hra] at he
    cases exc with
    | error e0 =>
      simp only [Option.some.injEq] at he
      subst he
      rw [hred]
      unfold analyze_run
      rw [hra]
    | ok p => simp at he
  · intro he
    unfold pipeline_error at he
    rcases hra : run_analyzers A text with ⟨exc, tr⟩
    rw [hra] at he
    cases exc with
    | error e0 => simp at he
    | ok p =>
      rw [hred]
      unfold analyze_run
      rw [hra]
      rfl

/-- Claim C1 witness: the amended theorem applied to the concrete
failing pipeline — the run returns the failed record and leaves store
and cache untouched. -/
theorem analyzer_failure_handling_witness :
    analyze_document failing_analyzers no_faults sample_db connected_empty_cache
        "doc1" "Acme text" true =
      ⟨failed_result "doc1" "boom" 42, sample_db, connected_empty_cache,
       ["ner", "sentiment", "classification"]⟩ :=
  (analyzer_failure_handling failing_analyzers no_faults sample_db connected_empty_cache
    "doc1" "Acme text" true (Or.inl rfl)).1 "boom" rfl

/-- Claim C9 (empty-input short-circuit): for every stored document
whose `text_content` is empty, the analyze route responds
`400 "Document has no text content"`, changes nothing, and invokes no
analyzer — no NER, sentiment, classification, graph or timeline stage
runs. -/
theorem empty_text_short_circuit (A : Analyzers) (f : DbFaults) (db : MongoState)
    (cache : CacheState) (document_id : String) (force : Bool) (doc : DocRecord)
    (hdoc : get_document db document_id = some doc) (htext : doc.text_content = "") :
    route_analyze_document A f db cache document_id force =
      (.httpError 400 "Document has no text content", db, cache, []) := by
  unfold route_analyze_document
  rw [hdoc]
  simp [htext]

/-- A store holding one document with empty extracted text. -/
def empty_text_db : MongoState := ⟨[("doc1", ⟨"", "pending", none, none⟩)], [], [], 7⟩

/-- Claim C9 witness: the short-circuit at the concrete empty-text
document. -/
theorem empty_text_short_circuit_witness :
    route_analyze_document sample_analyzers no_faults empty_text_db connected_empty_cache
        "doc1" false =
      (.httpError 400 "Document has no text content", empty_text_db,
       connected_empty_cache, []) :=
  empty_text_short_circuit sample_analyzers no_faults empty_text_db connected_empty_cache
    "doc1" false ⟨"", "pending", none, none⟩ rfl rfl
